import Mathlib

/-
Verification of the voice-assistant model-manager orchestration layer.

Shallow embedding conventions:
* JavaScript strings are modelled as `List Char`; `String.prototype.split`,
  `includes`, `trim`, `toLowerCase` are modelled by the executable functions
  `splitOnL`, `occursB`, `trimL`, `toLowerL` below, which follow the JS
  semantics (split scans left to right, a separator at the end yields a
  trailing empty segment, `trim` removes surrounding whitespace).
* The opaque backend load calls (`pipeline(...)` / `this.loadModel` inside the
  fallback cascade) are abstracted as a caller-supplied oracle
  `load : List Char -> Except (List Char) Bool` mapping a model identifier to
  either a thrown error message or the boolean result of a full load.
* `setTimeout` pacing delays are recorded in the emitted action trace as
  `StreamAction.sleep` entries so that statements about pacing are not vacuous.
* JavaScript floating point aggregates in the benchmark are modelled by
  `JSNum` (a rational, NaN, or a signed infinity), with `0 / 0 = NaN`,
  `Math.min() = Infinity` and `Math.max() = -Infinity` as in JS.
-/

/-- Model of JS string prefix testing (used by the model of `split`). -/
def isPrefixL : List Char → List Char → Bool
  | [], _ => true
  | _ :: _, [] => false
  | c :: p, d :: l => c == d && isPrefixL p l

/-- Model of `String.prototype.includes`: does `sep` occur as a contiguous
substring of the second argument? -/
def occursB (sep : List Char) : List Char → Bool
  | [] => isPrefixL sep []
  | c :: rest => isPrefixL sep (c :: rest) || occursB sep rest

/-- Worker for `splitOnL`; the `Nat` argument counts separator characters that
still have to be skipped after a separator match. -/
def splitSkip (sep : List Char) : Nat → List Char → List (List Char)
  | _, [] => [[]]
  | k+1, _ :: rest => splitSkip sep k rest
  | 0, c :: rest =>
    if isPrefixL sep (c :: rest) then
      [] :: splitSkip sep (sep.length - 1) rest
    else
      match splitSkip sep 0 rest with
      | [] => [[c]]
      | h :: t => (c :: h) :: t

/-- Model of `String.prototype.split` on a fixed separator string. -/
def splitOnL (sep l : List Char) : List (List Char) :=
  if sep = [] then [l] else splitSkip sep 0 l

/-- Model of JS array indexing `xs[i]` on a split result (the source only
indexes positions that its `includes` guards guarantee to exist). -/
def idx (l : List (List Char)) (i : Nat) : List Char :=
  l.getD i []

/-- Model of `Array.prototype.pop()` used as `split(..).pop()`. -/
def jsLast (l : List (List Char)) : List Char :=
  l.getLast?.getD []

/-- Whitespace as removed by `String.prototype.trim` (the characters that
actually occur in this repository). -/
def isWS (c : Char) : Bool :=
  c == ' ' || c == '\n' || c == '\t' || c == '\r'

/-- Model of `String.prototype.trim`. -/
def trimL (l : List Char) : List Char :=
  ((l.dropWhile isWS).reverse.dropWhile isWS).reverse

/-- Model of `String.prototype.toLowerCase` (ASCII identifiers only). -/
def toLowerL (l : List Char) : List Char :=
  l.map Char.toLower

/-- Model of `formatPromptForModel(prompt, modelName)` from model-manager.js
(lines 487-509): wrap the raw prompt in the role-delimiter template of the
model family detected by case-insensitive substring match on the identifier. -/
def formatPromptForModel (prompt modelName : List Char) : List Char :=
  let model := toLowerL modelName
  if occursB ("tinyllama".toList) model then
    ("<|system|>\nYou are a helpful AI assistant.<|user|>\n".toList) ++ prompt ++
      ("<|assistant|>\n".toList)
  else if occursB ("smollm2".toList) model || occursB ("smolml2".toList) model then
    ("<|im_start|>user\n".toList) ++ prompt ++ ("<|im_end|>\n<|im_start|>assistant\n".toList)
  else if occursB ("qwen".toList) model then
    ("<|im_start|>system\nYou are a helpful assistant.<|im_end|>\n<|im_start|>user\n".toList) ++
      prompt ++ ("<|im_end|>\n<|im_start|>assistant\n".toList)
  else if occursB ("phi".toList) model then
    ("<|user|>\n".toList) ++ prompt ++ ("<|end|>\n<|assistant|>\n".toList)
  else if occursB ("gemma".toList) model then
    ("<bos><start_of_turn>user\n".toList) ++ prompt ++
      ("<end_of_turn>\n<start_of_turn>model\n".toList)
  else if occursB ("llama".toList) model then
    ("<s>[INST] ".toList) ++ prompt ++ (" [/INST]".toList)
  else if occursB ("gpt2".toList) model || occursB ("distilgpt2".toList) model then
    ("Human: ".toList) ++ prompt ++ ("\nAI:".toList)
  else
    ("Human: ".toList) ++ prompt ++ ("\nAI:".toList)

/-- Model of `extractResponseFromModel(response, modelName)` from model-manager.js
(lines 511-562): slice away everything before the assistant-turn marker when
present, truncate at the end-of-turn markers, trim. -/
def extractResponseFromModel (response modelName : List Char) : List Char :=
  let model := toLowerL modelName
  if occursB ("tinyllama".toList) model then
    let r := if occursB ("<|assistant|>\n".toList) response then
        idx (splitOnL ("<|assistant|>\n".toList) response) 1
      else response
    trimL (idx (splitOnL ("<|system|>".toList) (idx (splitOnL ("<|user|>".toList) r) 0)) 0)
  else if occursB ("smollm2".toList) model || occursB ("smolml2".toList) model then
    let r := if occursB ("<|im_start|>assistant\n".toList) response then
        idx (splitOnL ("<|im_start|>assistant\n".toList) response) 1
      else response
    trimL (idx (splitOnL ("user ".toList)
      (idx (splitOnL ("system ".toList)
        (idx (splitOnL ("<|im_start|>".toList)
          (idx (splitOnL ("<|im_end|>".toList) r) 0)) 0)) 0)) 0)
  else if occursB ("qwen".toList) model then
    let r := if occursB ("<|im_start|>assistant\n".toList) response then
        idx (splitOnL ("<|im_start|>assistant\n".toList) response) 1
      else response
    trimL (idx (splitOnL ("<|im_end|>".toList) r) 0)
  else if occursB ("phi".toList) model then
    let r := if occursB ("<|assistant|>\n".toList) response then
        idx (splitOnL ("<|assistant|>\n".toList) response) 1
      else response
    trimL (idx (splitOnL ("<|end|>".toList) r) 0)
  else if occursB ("gemma".toList) model then
    let r := if occursB ("<start_of_turn>model\n".toList) response then
        idx (splitOnL ("<start_of_turn>model\n".toList) response) 1
      else response
    trimL (idx (splitOnL ("<end_of_turn>".toList) r) 0)
  else if occursB ("llama".toList) model then
    trimL (jsLast (splitOnL ("[/INST]".toList) response))
  else if occursB ("gpt2".toList) model || occursB ("distilgpt2".toList) model then
    let r := if occursB ("AI:".toList) response then
        idx (splitOnL ("AI:".toList) response) 1
      else response
    trimL (idx (splitOnL ("\n\n".toList) (idx (splitOnL ("Human:".toList) r) 0)) 0)
  else
    let r := if occursB ("AI:".toList) response then
        idx (splitOnL ("AI:".toList) response) 1
      else response
    trimL (idx (splitOnL ("\n\n".toList) (idx (splitOnL ("Human:".toList) r) 0)) 0)

/-- The assistant-turn marker that closes the template of each family; every
branch of `formatPromptForModel` ends its wrapped prompt with this marker, and
the matching branch of `extractResponseFromModel` slices at it. -/
def assistMarker (modelName : List Char) : List Char :=
  let model := toLowerL modelName
  if occursB ("tinyllama".toList) model then ("<|assistant|>\n".toList)
  else if occursB ("smollm2".toList) model || occursB ("smolml2".toList) model then
    ("<|im_start|>assistant\n".toList)
  else if occursB ("qwen".toList) model then ("<|im_start|>assistant\n".toList)
  else if occursB ("phi".toList) model then ("<|assistant|>\n".toList)
  else if occursB ("gemma".toList) model then ("<start_of_turn>model\n".toList)
  else if occursB ("llama".toList) model then ("[/INST]".toList)
  else ("AI:".toList)

/-- One representative identifier per dispatch branch of the prompt template
engine (the seven named families plus one identifier matching none of the
patterns, which takes the generic branch). -/
def familyReps : List (List Char) :=
  [("tinyllama".toList), ("smollm2".toList), ("qwen".toList), ("phi".toList),
   ("gemma".toList), ("llama".toList), ("gpt2".toList), ("mystery-model".toList)]

/-- Tag of a simulated streaming event (the `type` field of the JS object). -/
inductive EventType
  | word
  | sentence
  | complete
deriving DecidableEq, Repr

/-- One streaming callback payload: `type`, `text`, the optional `fullText`
carried only by word events, and the completion flag. -/
structure StreamEvent where
  type : EventType
  text : List Char
  fullText : Option (List Char)
  isComplete : Bool
deriving DecidableEq, Repr

/-- One observable action of the streaming simulator: a callback invocation or
a `setTimeout` pacing delay of the given number of milliseconds. -/
inductive StreamAction
  | emit (e : StreamEvent)
  | sleep (ms : Nat)
deriving DecidableEq, Repr

/-- The callback invocations of a trace, in order, with pacing delays erased. -/
def emittedEvents (tr : List StreamAction) : List StreamEvent :=
  tr.filterMap fun a =>
    match a with
    | .emit e => some e
    | .sleep _ => none

/-- The word loop of `runStreamingGeneration` (model-manager.js lines
424-457): for each word, extend the sentence buffer and the full-response
buffer, emit a sentence event and reset the buffer when the word ends in
sentence punctuation, otherwise emit a word event; the fixed delays are 100 ms
after a sentence and 25 ms after a word.  Returns the action trace and the
final sentence and full-response buffers. -/
def runStreamLoop : List (List Char) → List Char → List Char →
    List StreamAction × List Char × List Char
  | [], sentenceBuffer, fullResponse => ([], sentenceBuffer, fullResponse)
  | word :: rest, sentenceBuffer, fullResponse =>
    let sentenceBuffer := sentenceBuffer ++ word ++ [' ']
    let fullResponse := fullResponse ++ word ++ [' ']
    if (word.getLast?.getD ' ') == '.' || (word.getLast?.getD ' ') == '!' ||
        (word.getLast?.getD ' ') == '?' then
      let r := runStreamLoop rest [] fullResponse
      (.emit ⟨.sentence, trimL sentenceBuffer, none, false⟩ :: .sleep 100 :: r.1, r.2)
    else
      let r := runStreamLoop rest sentenceBuffer fullResponse
      (.emit ⟨.word, word, some (trimL fullResponse), false⟩ :: .sleep 25 :: r.1, r.2)

/-- The streaming-emission part of `runStreamingGeneration` (model-manager.js
lines 387-485), applied to the already extracted response text: split on
single spaces, run the word loop, emit a final sentence event when the
sentence buffer still holds text, then the completion event; the returned
string is the trimmed full response.  The generation call producing the
response text is the opaque backend collaborator and is abstracted as the
`response` argument. -/
def runStreamingGeneration (response : List Char) : List StreamAction × List Char :=
  let words := splitOnL ([' ']) response
  let r := runStreamLoop words [] []
  let tr := r.1
  let sentenceBuffer := r.2.1
  let fullResponse := r.2.2
  let tr := if trimL sentenceBuffer ≠ [] then
      tr ++ [.emit ⟨.sentence, trimL sentenceBuffer, none, false⟩]
    else tr
  let tr := tr ++ [.emit ⟨.complete, trimL fullResponse, none, true⟩]
  (tr, trimL fullResponse)

/-- The word loop of `generateStreamingText` (mediapipe-llm.js lines 284-317):
identical event structure, but the pacing delays are parameters. -/
def genStreamLoop (wordDelay sentenceDelay : Nat) :
    List (List Char) → List Char → List Char →
    List StreamAction × List Char × List Char
  | [], currentSentence, fullText => ([], currentSentence, fullText)
  | word :: rest, currentSentence, fullText =>
    let currentSentence := currentSentence ++ word ++ [' ']
    let fullText := fullText ++ word ++ [' ']
    if (word.getLast?.getD ' ') == '.' || (word.getLast?.getD ' ') == '!' ||
        (word.getLast?.getD ' ') == '?' then
      let r := genStreamLoop wordDelay sentenceDelay rest [] fullText
      (.emit ⟨.sentence, trimL currentSentence, none, false⟩ :: .sleep sentenceDelay :: r.1, r.2)
    else
      let r := genStreamLoop wordDelay sentenceDelay rest currentSentence fullText
      (.emit ⟨.word, word, some (trimL fullText), false⟩ :: .sleep wordDelay :: r.1, r.2)

/-- The streaming-emission part of `generateStreamingText` (mediapipe-llm.js
lines 248-345), applied to the already extracted response text: the word delay
is 15 ms for Q4-quantized models and 20 ms otherwise, the sentence delay 30 ms
against 50 ms; then the same loop, final sentence event and completion event
as the ONNX emitter. -/
def generateStreamingText (isQ4Model : Bool) (responseText : List Char) :
    List StreamAction × List Char :=
  let wordDelay := if isQ4Model then 15 else 20
  let sentenceDelay := if isQ4Model then 30 else 50
  let words := splitOnL ([' ']) responseText
  let r := genStreamLoop wordDelay sentenceDelay words [] []
  let tr := r.1
  let currentSentence := r.2.1
  let fullText := r.2.2
  let tr := if trimL currentSentence ≠ [] then
      tr ++ [.emit ⟨.sentence, trimL currentSentence, none, false⟩]
    else tr
  let tr := tr ++ [.emit ⟨.complete, trimL fullText, none, true⟩]
  (tr, trimL fullText)

/-- Outcome of the WebGPU probe in `detectSupportedDevices`: `navigator.gpu`
absent, an adapter found, `requestAdapter()` resolving to null, or the request
throwing (swallowed by the catch). -/
inductive GpuProbe
  | gpuAbsent
  | adapterFound
  | adapterNull
  | requestFailed
deriving DecidableEq, Repr

/-- One entry of the `this.models` registry.  `hasSession` records whether the
stored object carries a truthy `session` field; the entries written by
`loadModel` (model-manager.js lines 177-184) and by the MediaPipe path (lines
242-249) have no such field. -/
structure ModelEntry where
  loaded : Bool
  backend : List Char
  hasSession : Bool
deriving DecidableEq, Repr

/-- The entry stored by a successful ONNX `loadModel` call: the object literal
has `pipeline, config, device, loaded, realModel, backend` fields and no
`session` field. -/
def onnxEntry : ModelEntry :=
  { loaded := true, backend := ("onnx".toList), hasSession := false }

/-- The mutable instance state of `ModelManager` that the claims concern:
the model registry (an insertion-ordered key to entry map), the ranked device
list, the backend list and the current backend. -/
structure MMState where
  models : List (List Char × ModelEntry)
  supportedDevices : List (List Char)
  supportedBackends : List (List Char)
  currentBackend : List Char
deriving DecidableEq, Repr

/-- Model of `detectSupportedDevices` (model-manager.js lines 65-100): start from
`[cpu]`, unshift `wasm` when WebAssembly is present, unshift `webgpu` when an
adapter is found (any probe failure is swallowed), take the head as best
device, copy the device list into the backend list, append `mediapipe` when
the MediaPipe class is defined, and set the current backend to the best
device. -/
def detectSupportedDevices (st : MMState) (hasWasm : Bool) (gpu : GpuProbe)
    (hasMediaPipe : Bool) : MMState :=
  let supportedDevices := [("cpu".toList)]
  let supportedDevices := if hasWasm then ("wasm".toList) :: supportedDevices
    else supportedDevices
  let supportedDevices := match gpu with
    | .adapterFound => ("webgpu".toList) :: supportedDevices
    | _ => supportedDevices
  let bestDevice := supportedDevices.headD []
  let supportedBackends := supportedDevices ++
    (if hasMediaPipe then [("mediapipe".toList)] else [])
  { st with
    supportedDevices := supportedDevices
    supportedBackends := supportedBackends
    currentBackend := bestDevice }

/-- Model of `unloadModel` (model-manager.js lines 588-596): look the name up in the
registry and delete the entry only when the stored object has a truthy
`session` field; otherwise do nothing. -/
def unloadModel (st : MMState) (modelName : List Char) : MMState :=
  match st.models.find? (fun p => p.1 = modelName) with
  | some m =>
    if m.2.hasSession then
      { st with models := st.models.filter (fun p => ¬ (p.1 = modelName)) }
    else st
  | none => st

/-- The registry write `this.models.set(name, entry)` performed by a
successful load: replace any entry under the key, else append. -/
def setModelEntry (st : MMState) (modelName : List Char) (e : ModelEntry) : MMState :=
  if (st.models.find? (fun p => p.1 = modelName)).isSome then
    { st with models := st.models.map (fun p => if p.1 = modelName then (p.1, e) else p) }
  else
    { st with models := st.models ++ [(modelName, e)] }

/-- Model of `switchBackend` (model-manager.js lines 569-586): throw when the requested
backend is not in the supported list, otherwise set the current backend and
call `unloadModel` on every registered key.  The returned state is the
instance state after the call; on the throwing path nothing was mutated. -/
def switchBackend (st : MMState) (newBackend : List Char) :
    MMState × Except (List Char) Bool :=
  if st.supportedBackends.contains newBackend then
    let st1 := { st with currentBackend := newBackend }
    let loadedModels := st1.models.map Prod.fst
    let st2 := loadedModels.foldl unloadModel st1
    (st2, .ok true)
  else
    (st, .error (("Backend ".toList) ++ newBackend ++ (" is not supported".toList)))

/-- Result of one run of the MediaPipe-failure fallback cascade: the model
identifiers attempted through full loads, in order; the value of
`config.textgen.modelName` when the cascade returns or throws; and the
returned boolean or thrown error message. -/
structure CascadeResult where
  attempts : List (List Char)
  finalModelName : List Char
  outcome : Except (List Char) Bool
deriving Repr

/-- The candidate loop of the cascade (src/unnamed/part_000 lines 316-339):
substitute each candidate into the configuration and attempt a full load,
stopping at the first success.  Returns the attempted identifiers in order
and, on success, the successful identifier with the load result. -/
def runFallbackList (load : List Char → Except (List Char) Bool) :
    List (List Char) → List (List Char) × Option (List Char × Bool)
  | [] => ([], none)
  | m :: rest =>
    match load m with
    | .ok r => ([m], some (m, r))
    | .error _ =>
      let t := runFallbackList load rest
      (m :: t.1, t.2)

/-- The full cascade of the `loadMediaPipeModel` catch block
(src/unnamed/part_000 lines 299-364) with the candidate list as a parameter:
run the candidate loop; if every candidate failed, substitute the emergency
identifier and attempt it; if that also fails, restore the original identifier
and throw an error whose message combines the MediaPipe failure message and
the emergency failure message. -/
def fallbackCascade (load : List Char → Except (List Char) Bool)
    (mediaPipeErrMsg originalModelName : List Char)
    (modelList : List (List Char)) (emergencyFallback : List Char) : CascadeResult :=
  match runFallbackList load modelList with
  | (as, some (m, r)) => ⟨as, m, .ok r⟩
  | (as, none) =>
    match load emergencyFallback with
    | .ok r => ⟨as ++ [emergencyFallback], emergencyFallback, .ok r⟩
    | .error emergencyErr =>
      ⟨as ++ [emergencyFallback], originalModelName,
       .error (("All fallback attempts failed. MediaPipe: ".toList) ++ mediaPipeErrMsg ++
         (", Final fallback: ".toList) ++ emergencyErr)⟩

/-- Model of `getFallbackONNXModel` (src/unnamed/part_000 lines 367-396): map a
MediaPipe model name to its ONNX fallback candidates; a single-string JS
return is normalised here to a one-element list, as the caller does with
`Array.isArray`; `null` becomes `none`. -/
def getFallbackONNXModel (mediaPipeModelName : List Char) : Option (List (List Char)) :=
  let modelLower := toLowerL mediaPipeModelName
  if occursB ("gemma-3-1b".toList) modelLower || occursB ("gemma3-1b".toList) modelLower then
    some [("HuggingFaceTB/SmolLM2-1.7B-Instruct".toList),
          ("Xenova/TinyLlama-1.1B-Chat-v1.0".toList),
          ("HuggingFaceTB/SmolLM2-135M-Instruct".toList)]
  else if occursB ("gemma-2b".toList) modelLower || occursB ("gemma2b".toList) modelLower then
    some [("HuggingFaceTB/SmolLM2-1.7B-Instruct".toList)]
  else if occursB ("gemma-7b".toList) modelLower || occursB ("gemma7b".toList) modelLower then
    some [("Xenova/TinyLlama-1.1B-Chat-v1.0".toList)]
  else if occursB ("gemma".toList) modelLower then
    some [("HuggingFaceTB/SmolLM2-1.7B-Instruct".toList),
          ("Xenova/TinyLlama-1.1B-Chat-v1.0".toList),
          ("HuggingFaceTB/SmolLM2-135M-Instruct".toList)]
  else
    none

/-- The emergency identifier hard-coded at src/unnamed/part_000 line 343. -/
def emergencyId : List Char :=
  ("HuggingFaceTB/SmolLM2-135M-Instruct".toList)

/-- The catch block of `loadMediaPipeModel` (src/unnamed/part_000 lines
299-364): consult the fallback table and run the cascade with the fixed
emergency identifier; with no table entry, rethrow directly. -/
def mediaPipeFallback (load : List Char → Except (List Char) Bool)
    (mediaPipeErrMsg modelName originalModelName : List Char) : CascadeResult :=
  match getFallbackONNXModel modelName with
  | some fallbackModels =>
    fallbackCascade load mediaPipeErrMsg originalModelName fallbackModels emergencyId
  | none =>
    ⟨[], originalModelName,
     .error (("MediaPipe model loading failed and no suitable ONNX fallback found: ".toList) ++
       mediaPipeErrMsg)⟩

/-- The error message of a cascade outcome (empty for a success). -/
def errMsgOf (o : Except (List Char) Bool) : List Char :=
  match o with
  | .error m => m
  | .ok _ => []

/-- JavaScript number as produced by the benchmark aggregates: a finite value,
NaN, or a signed infinity. -/
inductive JSNum
  | num (q : ℚ)
  | nan
  | inf
  | ninf
deriving DecidableEq, Repr

/-- JS division `s / n` for the average: division by zero of a zero numerator
gives NaN, of a positive numerator Infinity, of a negative one -Infinity. -/
def jsDiv (s : ℚ) (n : Nat) : JSNum :=
  if n = 0 then
    if s = 0 then .nan else if 0 < s then .inf else .ninf
  else .num (s / (n : ℚ))

/-- JS `Math.min(...xs)`: Infinity on the empty spread. -/
def jsMinList (l : List ℚ) : JSNum :=
  match l with
  | [] => .inf
  | x :: xs => .num (xs.foldl min x)

/-- JS `Math.max(...xs)`: -Infinity on the empty spread. -/
def jsMaxList (l : List ℚ) : JSNum :=
  match l with
  | [] => .ninf
  | x :: xs => .num (xs.foldl max x)

/-- The aggregate fields returned by `benchmarkModel`. -/
structure BenchResult where
  iterations : Nat
  times : List ℚ
  averageTime : JSNum
  minTime : JSNum
  maxTime : JSNum
deriving DecidableEq, Repr

/-- Model of `benchmarkModel` (model-manager.js lines 625-667): run the iterations in
order; a throwing iteration is logged and contributes no sample, a successful
one contributes its wall-clock duration.  The per-iteration inference calls
are the opaque backend collaborators, abstracted as `outcome i = none` for a
throwing iteration `i` and `outcome i = some d` for a successful one of
duration `d`.  Aggregates: `times.reduce(..) / times.length`,
`Math.min(...times)`, `Math.max(...times)`. -/
def benchmarkModel (iterations : Nat) (outcome : Nat → Option ℚ) : BenchResult :=
  let times := (List.range iterations).filterMap outcome
  { iterations := iterations
    times := times
    averageTime := jsDiv (times.foldl (· + ·) 0) times.length
    minTime := jsMinList times
    maxTime := jsMaxList times }

/-! ### Lemmas about the string model -/

theorem isPrefixL_append (p t : List Char) : isPrefixL p (p ++ t) = true := by
  induction p with
  | nil => rfl
  | cons c p ih => simp [isPrefixL, ih]

theorem isPrefixL_of_append (p u v : List Char) (hl : p.length ≤ u.length)
    (h : isPrefixL p (u ++ v) = true) : isPrefixL p u = true := by
  induction p generalizing u with
  | nil => rfl
  | cons c p ih =>
    cases u with
    | nil => simp at hl
    | cons d u =>
      simp only [List.cons_append, isPrefixL, Bool.and_eq_true, beq_iff_eq] at h
      simp only [isPrefixL, Bool.and_eq_true, beq_iff_eq]
      exact ⟨h.1, ih u (by simpa using hl) h.2⟩

theorem occursB_cons_false (sep : List Char) (c : Char) (l : List Char)
    (h : occursB sep (c :: l) = false) :
    isPrefixL sep (c :: l) = false ∧ occursB sep l = false := by
  simpa [occursB] using h

theorem splitSkip_skip (sep : List Char) (x y : List Char) :
    splitSkip sep x.length (x ++ y) = splitSkip sep 0 y := by
  induction x with
  | nil => rfl
  | cons c x ih => exact ih

theorem splitSkip_no_occur (sep : List Char) (l : List Char)
    (h : occursB sep l = false) : splitSkip sep 0 l = [l] := by
  induction l with
  | nil => rfl
  | cons c rest ih =>
    obtain ⟨h1, h2⟩ := occursB_cons_false sep c rest h
    simp [splitSkip, h1, ih h2]

theorem splitSkip_append_sep (sep : List Char) (hsep : sep ≠ []) (b : List Char) :
    ∀ a : List Char, occursB sep ((a ++ sep).dropLast) = false →
      splitSkip sep 0 (a ++ sep ++ b) = a :: splitSkip sep 0 b := by
  intro a
  induction a with
  | nil =>
    intro _
    obtain ⟨s, ss, rfl⟩ : ∃ s ss, sep = s :: ss := by
      cases sep with
      | nil => exact absurd rfl hsep
      | cons s ss => exact ⟨s, ss, rfl⟩
    show splitSkip (s :: ss) 0 (s :: (ss ++ b)) = [] :: splitSkip (s :: ss) 0 b
    have hpre : isPrefixL (s :: ss) (s :: (ss ++ b)) = true := isPrefixL_append (s :: ss) b
    have hskip := splitSkip_skip (s :: ss) ss b
    simp [splitSkip, hpre, hskip]
  | cons c a ih =>
    intro h
    have hne : a ++ sep ≠ [] := by
      intro hx
      exact hsep (List.append_eq_nil.mp hx).2
    have hdl : ((c :: a) ++ sep).dropLast = c :: (a ++ sep).dropLast := by
      show (c :: (a ++ sep)).dropLast = _
      cases hq : a ++ sep with
      | nil => exact absurd hq hne
      | cons d t => simp
    rw [hdl] at h
    obtain ⟨h1, h2⟩ := occursB_cons_false _ _ _ h
    have hpf : isPrefixL sep (c :: (a ++ sep ++ b)) = false := by
      cases hy : isPrefixL sep (c :: (a ++ sep ++ b)) with
      | false => rfl
      | true =>
        exfalso
        have hdec : c :: (a ++ sep ++ b)
            = (c :: (a ++ sep).dropLast) ++ ([(a ++ sep).getLast hne] ++ b) := by
          conv_lhs => rw [show a ++ sep ++ b = (a ++ sep) ++ b from rfl,
            ← List.dropLast_append_getLast hne]
          simp
        have hlen : sep.length ≤ (c :: (a ++ sep).dropLast).length := by
          simp only [List.length_cons, List.length_dropLast, List.length_append]
          have : 1 ≤ sep.length := List.length_pos.mpr hsep
          omega
        have hcontra := isPrefixL_of_append sep (c :: (a ++ sep).dropLast)
          ([(a ++ sep).getLast hne] ++ b) hlen (hdec ▸ hy)
        rw [hcontra] at h1
        exact Bool.noConfusion h1
    have ih2 := ih h2
    rw [List.append_assoc] at hpf ih2
    simp only [List.cons_append, List.append_assoc]
    simp [splitSkip, hpf, ih2]

theorem occursB_append_sep (sep : List Char) (hsep : sep ≠ []) (a b : List Char) :
    occursB sep (a ++ sep ++ b) = true := by
  induction a with
  | nil =>
    obtain ⟨s, ss, rfl⟩ : ∃ s ss, sep = s :: ss := by
      cases sep with
      | nil => exact absurd rfl hsep
      | cons s ss => exact ⟨s, ss, rfl⟩
    show occursB (s :: ss) (s :: (ss ++ b)) = true
    have hpre : isPrefixL (s :: ss) (s :: (ss ++ b)) = true := isPrefixL_append (s :: ss) b
    simp [occursB, hpre]
  | cons c a ih =>
    rw [List.append_assoc] at ih
    simp only [List.cons_append, List.append_assoc]
    simp [occursB, ih]

theorem splitOnL_wrapped (sep a : List Char) (hsep : sep ≠ [])
    (h : occursB sep ((a ++ sep).dropLast) = false) :
    occursB sep (a ++ sep) = true ∧ splitOnL sep (a ++ sep) = [a, []] := by
  constructor
  · have := occursB_append_sep sep hsep a []
    simpa using this
  · have h2 := splitSkip_append_sep sep hsep [] a h
    rw [List.append_nil] at h2
    simp only [splitOnL, if_neg hsep]
    exact h2

/-! ### Per-family evaluation of extract after wrap -/

theorem extract_format_tinyllama (p : List Char)
    (h : occursB (("<|assistant|>\n").toList)
        ((formatPromptForModel p (("tinyllama").toList)).dropLast) = false) :
    extractResponseFromModel (formatPromptForModel p (("tinyllama").toList))
      (("tinyllama").toList) = [] := by
  rw [show formatPromptForModel p (("tinyllama").toList)
      = (("<|system|>\nYou are a helpful AI assistant.<|user|>\n").toList ++ p)
        ++ (("<|assistant|>\n").toList) from rfl] at h ⊢
  revert h
  generalize ("<|system|>\nYou are a helpful AI assistant.<|user|>\n").toList ++ p = A
  intro h
  obtain ⟨hin, hsp⟩ := splitOnL_wrapped (("<|assistant|>\n").toList) A (by decide) h
  have hg : (if occursB (("<|assistant|>\n").toList) (A ++ (("<|assistant|>\n").toList)) then
      idx (splitOnL (("<|assistant|>\n").toList) (A ++ (("<|assistant|>\n").toList))) 1
    else A ++ (("<|assistant|>\n").toList)) = [] := by
    rw [if_pos hin, hsp]
    rfl
  show trimL (idx (splitOnL (("<|system|>").toList)
      (idx (splitOnL (("<|user|>").toList)
        (if occursB (("<|assistant|>\n").toList) (A ++ (("<|assistant|>\n").toList)) then
          idx (splitOnL (("<|assistant|>\n").toList) (A ++ (("<|assistant|>\n").toList))) 1
        else A ++ (("<|assistant|>\n").toList))) 0)) 0) = []
  rw [hg]
  rfl

theorem extract_format_smollm2 (p : List Char)
    (h : occursB (("<|im_start|>assistant\n").toList)
        ((formatPromptForModel p (("smollm2").toList)).dropLast) = false) :
    extractResponseFromModel (formatPromptForModel p (("smollm2").toList))
      (("smollm2").toList) = [] := by
  rw [show formatPromptForModel p (("smollm2").toList)
      = ((("<|im_start|>user\n").toList ++ p) ++ (("<|im_end|>\n").toList))
        ++ (("<|im_start|>assistant\n").toList) from by rw [List.append_assoc]; rfl] at h ⊢
  revert h
  generalize (("<|im_start|>user\n").toList ++ p) ++ (("<|im_end|>\n").toList) = A
  intro h
  obtain ⟨hin, hsp⟩ := splitOnL_wrapped (("<|im_start|>assistant\n").toList) A (by decide) h
  have hg : (if occursB (("<|im_start|>assistant\n").toList)
        (A ++ (("<|im_start|>assistant\n").toList)) then
      idx (splitOnL (("<|im_start|>assistant\n").toList)
        (A ++ (("<|im_start|>assistant\n").toList))) 1
    else A ++ (("<|im_start|>assistant\n").toList)) = [] := by
    rw [if_pos hin, hsp]
    rfl
  show trimL (idx (splitOnL (("user ").toList)
      (idx (splitOnL (("system ").toList)
        (idx (splitOnL (("<|im_start|>").toList)
          (idx (splitOnL (("<|im_end|>").toList)
            (if occursB (("<|im_start|>assistant\n").toList)
                (A ++ (("<|im_start|>assistant\n").toList)) then
              idx (splitOnL (("<|im_start|>assistant\n").toList)
                (A ++ (("<|im_start|>assistant\n").toList))) 1
            else A ++ (("<|im_start|>assistant\n").toList))) 0)) 0)) 0)) 0) = []
  rw [hg]
  rfl

theorem extract_format_qwen (p : List Char)
    (h : occursB (("<|im_start|>assistant\n").toList)
        ((formatPromptForModel p (("qwen").toList)).dropLast) = false) :
    extractResponseFromModel (formatPromptForModel p (("qwen").toList))
      (("qwen").toList) = [] := by
  rw [show formatPromptForModel p (("qwen").toList)
      = ((("<|im_start|>system\nYou are a helpful assistant.<|im_end|>\n<|im_start|>user\n").toList
          ++ p) ++ (("<|im_end|>\n").toList))
        ++ (("<|im_start|>assistant\n").toList) from by rw [List.append_assoc]; rfl] at h ⊢
  revert h
  generalize (("<|im_start|>system\nYou are a helpful assistant.<|im_end|>\n<|im_start|>user\n").toList
      ++ p) ++ (("<|im_end|>\n").toList) = A
  intro h
  obtain ⟨hin, hsp⟩ := splitOnL_wrapped (("<|im_start|>assistant\n").toList) A (by decide) h
  have hg : (if occursB (("<|im_start|>assistant\n").toList)
        (A ++ (("<|im_start|>assistant\n").toList)) then
      idx (splitOnL (("<|im_start|>assistant\n").toList)
        (A ++ (("<|im_start|>assistant\n").toList))) 1
    else A ++ (("<|im_start|>assistant\n").toList)) = [] := by
    rw [if_pos hin, hsp]
    rfl
  show trimL (idx (splitOnL (("<|im_end|>").toList)
      (if occursB (("<|im_start|>assistant\n").toList)
          (A ++ (("<|im_start|>assistant\n").toList)) then
        idx (splitOnL (("<|im_start|>assistant\n").toList)
          (A ++ (("<|im_start|>assistant\n").toList))) 1
      else A ++ (("<|im_start|>assistant\n").toList))) 0) = []
  rw [hg]
  rfl

theorem extract_format_phi (p : List Char)
    (h : occursB (("<|assistant|>\n").toList)
        ((formatPromptForModel p (("phi").toList)).dropLast) = false) :
    extractResponseFromModel (formatPromptForModel p (("phi").toList))
      (("phi").toList) = [] := by
  rw [show formatPromptForModel p (("phi").toList)
      = ((("<|user|>\n").toList ++ p) ++ (("<|end|>\n").toList))
        ++ (("<|assistant|>\n").toList) from by rw [List.append_assoc]; rfl] at h ⊢
  revert h
  generalize (("<|user|>\n").toList ++ p) ++ (("<|end|>\n").toList) = A
  intro h
  obtain ⟨hin, hsp⟩ := splitOnL_wrapped (("<|assistant|>\n").toList) A (by decide) h
  have hg : (if occursB (("<|assistant|>\n").toList) (A ++ (("<|assistant|>\n").toList)) then
      idx (splitOnL (("<|assistant|>\n").toList) (A ++ (("<|assistant|>\n").toList))) 1
    else A ++ (("<|assistant|>\n").toList)) = [] := by
    rw [if_pos hin, hsp]
    rfl
  show trimL (idx (splitOnL (("<|end|>").toList)
      (if occursB (("<|assistant|>\n").toList) (A ++ (("<|assistant|>\n").toList)) then
        idx (splitOnL (("<|assistant|>\n").toList) (A ++ (("<|assistant|>\n").toList))) 1
      else A ++ (("<|assistant|>\n").toList))) 0) = []
  rw [hg]
  rfl

theorem extract_format_gemma (p : List Char)
    (h : occursB (("<start_of_turn>model\n").toList)
        ((formatPromptForModel p (("gemma").toList)).dropLast) = false) :
    extractResponseFromModel (formatPromptForModel p (("gemma").toList))
      (("gemma").toList) = [] := by
  rw [show formatPromptForModel p (("gemma").toList)
      = ((("<bos><start_of_turn>user\n").toList ++ p) ++ (("<end_of_turn>\n").toList))
        ++ (("<start_of_turn>model\n").toList) from by rw [List.append_assoc]; rfl] at h ⊢
  revert h
  generalize (("<bos><start_of_turn>user\n").toList ++ p) ++ (("<end_of_turn>\n").toList) = A
  intro h
  obtain ⟨hin, hsp⟩ := splitOnL_wrapped (("<start_of_turn>model\n").toList) A (by decide) h
  have hg : (if occursB (("<start_of_turn>model\n").toList)
        (A ++ (("<start_of_turn>model\n").toList)) then
      idx (splitOnL (("<start_of_turn>model\n").toList)
        (A ++ (("<start_of_turn>model\n").toList))) 1
    else A ++ (("<start_of_turn>model\n").toList)) = [] := by
    rw [if_pos hin, hsp]
    rfl
  show trimL (idx (splitOnL (("<end_of_turn>").toList)
      (if occursB (("<start_of_turn>model\n").toList)
          (A ++ (("<start_of_turn>model\n").toList)) then
        idx (splitOnL (("<start_of_turn>model\n").toList)
          (A ++ (("<start_of_turn>model\n").toList))) 1
      else A ++ (("<start_of_turn>model\n").toList))) 0) = []
  rw [hg]
  rfl

theorem extract_format_llama (p : List Char)
    (h : occursB (("[/INST]").toList)
        ((formatPromptForModel p (("llama").toList)).dropLast) = false) :
    extractResponseFromModel (formatPromptForModel p (("llama").toList))
      (("llama").toList) = [] := by
  rw [show formatPromptForModel p (("llama").toList)
      = ((("<s>[INST] ").toList ++ p) ++ ((" ").toList)) ++ (("[/INST]").toList)
      from by rw [List.append_assoc]; rfl] at h ⊢
  revert h
  generalize (("<s>[INST] ").toList ++ p) ++ ((" ").toList) = A
  intro h
  obtain ⟨hin, hsp⟩ := splitOnL_wrapped (("[/INST]").toList) A (by decide) h
  show trimL (jsLast (splitOnL (("[/INST]").toList) (A ++ (("[/INST]").toList)))) = []
  rw [hsp]
  rfl

theorem extract_format_gpt2 (p : List Char)
    (h : occursB (("AI:").toList)
        ((formatPromptForModel p (("gpt2").toList)).dropLast) = false) :
    extractResponseFromModel (formatPromptForModel p (("gpt2").toList))
      (("gpt2").toList) = [] := by
  rw [show formatPromptForModel p (("gpt2").toList)
      = ((("Human: ").toList ++ p) ++ (("\n").toList)) ++ (("AI:").toList)
      from by rw [List.append_assoc]; rfl] at h ⊢
  revert h
  generalize (("Human: ").toList ++ p) ++ (("\n").toList) = A
  intro h
  obtain ⟨hin, hsp⟩ := splitOnL_wrapped (("AI:").toList) A (by decide) h
  have hg : (if occursB (("AI:").toList) (A ++ (("AI:").toList)) then
      idx (splitOnL (("AI:").toList) (A ++ (("AI:").toList))) 1
    else A ++ (("AI:").toList)) = [] := by
    rw [if_pos hin, hsp]
    rfl
  show trimL (idx (splitOnL (("\n\n").toList)
      (idx (splitOnL (("Human:").toList)
        (if occursB (("AI:").toList) (A ++ (("AI:").toList)) then
          idx (splitOnL (("AI:").toList) (A ++ (("AI:").toList))) 1
        else A ++ (("AI:").toList))) 0)) 0) = []
  rw [hg]
  rfl

theorem extract_format_generic (p : List Char)
    (h : occursB (("AI:").toList)
        ((formatPromptForModel p (("mystery-model").toList)).dropLast) = false) :
    extractResponseFromModel (formatPromptForModel p (("mystery-model").toList))
      (("mystery-model").toList) = [] := by
  rw [show formatPromptForModel p (("mystery-model").toList)
      = ((("Human: ").toList ++ p) ++ (("\n").toList)) ++ (("AI:").toList)
      from by rw [List.append_assoc]; rfl] at h ⊢
  revert h
  generalize (("Human: ").toList ++ p) ++ (("\n").toList) = A
  intro h
  obtain ⟨hin, hsp⟩ := splitOnL_wrapped (("AI:").toList) A (by decide) h
  have hg : (if occursB (("AI:").toList) (A ++ (("AI:").toList)) then
      idx (splitOnL (("AI:").toList) (A ++ (("AI:").toList))) 1
    else A ++ (("AI:").toList)) = [] := by
    rw [if_pos hin, hsp]
    rfl
  show trimL (idx (splitOnL (("\n\n").toList)
      (idx (splitOnL (("Human:").toList)
        (if occursB (("AI:").toList) (A ++ (("AI:").toList)) then
          idx (splitOnL (("AI:").toList) (A ++ (("AI:").toList))) 1
        else A ++ (("AI:").toList))) 0)) 0) = []
  rw [hg]
  rfl

/-! ### Claim C3: wrap/unwrap roundtrip -/

/-- Claim C3 (amended): for every supported family, applying the response
extraction to the wrapped prompt alone yields the empty string (everything up
to and including the final assistant marker is sliced away), not the prompt;
the hypothesis states that the wrapped prompt contains the assistant marker
only as its final marker, which holds whenever the prompt does not contain
the delimiter tokens of its family. -/
theorem wrap_unwrap_prompt (name p : List Char) (hn : name ∈ familyReps)
    (h : occursB (assistMarker name) ((formatPromptForModel p name).dropLast) = false) :
    extractResponseFromModel (formatPromptForModel p name) name = [] := by
  simp only [familyReps, List.mem_cons, List.mem_singleton, List.not_mem_nil, or_false] at hn
  rcases hn with rfl | rfl | rfl | rfl | rfl | rfl | rfl | rfl
  · exact extract_format_tinyllama p h
  · exact extract_format_smollm2 p h
  · exact extract_format_qwen p h
  · exact extract_format_phi p h
  · exact extract_format_gemma p h
  · exact extract_format_llama p h
  · exact extract_format_gpt2 p h
  · exact extract_format_generic p h

/-- Claim C3 witness: the amended theorem applied to the tinyllama family at
the prompt Hello. -/
theorem wrap_unwrap_prompt_witness :
    (("tinyllama").toList ∈ familyReps) ∧
    (occursB (assistMarker (("tinyllama").toList))
      ((formatPromptForModel (("Hello").toList) (("tinyllama").toList)).dropLast) = false) ∧
    extractResponseFromModel
      (formatPromptForModel (("Hello").toList) (("tinyllama").toList))
      (("tinyllama").toList) = [] :=
  ⟨by decide, by decide, wrap_unwrap_prompt _ _ (by decide) (by decide)⟩

/-- Claim C3 counterexample: for the tinyllama family and the delimiter-free
prompt Hello, extracting from the wrapped prompt does not return the prompt
(it returns the empty string), refuting the roundtrip as stated. -/
theorem wrap_unwrap_prompt_cex :
    occursB (("<|assistant|>").toList) (("Hello").toList) = false ∧
    occursB (("<|user|>").toList) (("Hello").toList) = false ∧
    occursB (("<|system|>").toList) (("Hello").toList) = false ∧
    extractResponseFromModel
      (formatPromptForModel (("Hello").toList) (("tinyllama").toList))
      (("tinyllama").toList) ≠ ("Hello").toList := by
  refine ⟨by decide, by decide, by decide, by decide⟩

/-! ### Claim C4: streaming event trace -/

/-- Claim C4: fed the text Hello there. How are you?, the streaming emitter
invokes the callback with exactly word(Hello), sentence(Hello there.),
word(How), word(are), sentence(How are you?), then one complete event with
the completion flag, and returns the full text. -/
theorem streaming_hello_trace :
    emittedEvents (runStreamingGeneration (("Hello there. How are you?").toList)).1 =
      [⟨.word, ("Hello").toList, some (("Hello").toList), false⟩,
       ⟨.sentence, ("Hello there.").toList, none, false⟩,
       ⟨.word, ("How").toList, some (("Hello there. How").toList), false⟩,
       ⟨.word, ("are").toList, some (("Hello there. How are").toList), false⟩,
       ⟨.sentence, ("How are you?").toList, none, false⟩,
       ⟨.complete, ("Hello there. How are you?").toList, none, true⟩] ∧
    (runStreamingGeneration (("Hello there. How are you?").toList)).2 =
      (("Hello there. How are you?").toList) := by
  constructor <;> decide

/-! ### Claims C1 and C2: the fallback cascade -/

/-- Claim C1: with candidates [A, B, C] and emergency E, when A and B fail and
C succeeds, the cascade attempts exactly A, then B, then C in that order,
stops at C and returns its load result, leaves C substituted in the
configuration, and never attempts E. -/
theorem fallback_first_success
    (load : List Char → Except (List Char) Bool)
    (A B C E mpErr orig eA eB : List Char)
    (hA : load A = Except.error eA) (hB : load B = Except.error eB)
    (hC : load C = Except.ok true)
    (hE : E ∉ [A, B, C]) :
    (fallbackCascade load mpErr orig [A, B, C] E).attempts = [A, B, C] ∧
    (fallbackCascade load mpErr orig [A, B, C] E).outcome = Except.ok true ∧
    (fallbackCascade load mpErr orig [A, B, C] E).finalModelName = C ∧
    E ∉ (fallbackCascade load mpErr orig [A, B, C] E).attempts := by
  have hr : runFallbackList load [A, B, C] = ([A, B, C], some (C, true)) := by
    simp [runFallbackList, hA, hB, hC]
  refine ⟨?_, ?_, ?_, ?_⟩
  · simp [fallbackCascade, hr]
  · simp [fallbackCascade, hr]
  · simp [fallbackCascade, hr]
  · simp only [fallbackCascade, hr]
    exact hE

/-- Load oracle for the C1 witness: candA and candB fail, candC succeeds. -/
def loadW : List Char → Except (List Char) Bool := fun m =>
  if m = ("candA").toList then Except.error (("failA").toList)
  else if m = ("candB").toList then Except.error (("failB").toList)
  else if m = ("candC").toList then Except.ok true
  else Except.error (("failE").toList)

/-- Claim C1 witness: the cascade theorem applied to a concrete oracle where
candA and candB fail and candC succeeds. -/
theorem fallback_first_success_witness :
    loadW (("candA").toList) = Except.error (("failA").toList) ∧
    loadW (("candB").toList) = Except.error (("failB").toList) ∧
    loadW (("candC").toList) = Except.ok true ∧
    (("candE").toList) ∉ [("candA").toList, ("candB").toList, ("candC").toList] ∧
    ((fallbackCascade loadW (("mp err").toList) (("google/gemma-3-1b-it").toList)
        [("candA").toList, ("candB").toList, ("candC").toList] (("candE").toList)).attempts
      = [("candA").toList, ("candB").toList, ("candC").toList] ∧
    (fallbackCascade loadW (("mp err").toList) (("google/gemma-3-1b-it").toList)
        [("candA").toList, ("candB").toList, ("candC").toList] (("candE").toList)).outcome
      = Except.ok true ∧
    (fallbackCascade loadW (("mp err").toList) (("google/gemma-3-1b-it").toList)
        [("candA").toList, ("candB").toList, ("candC").toList] (("candE").toList)).finalModelName
      = ("candC").toList ∧
    (("candE").toList) ∉ (fallbackCascade loadW (("mp err").toList)
        (("google/gemma-3-1b-it").toList)
        [("candA").toList, ("candB").toList, ("candC").toList]
        (("candE").toList)).attempts) :=
  ⟨rfl, rfl, rfl, by decide,
   fallback_first_success loadW _ _ _ _ _ _ _ _ rfl rfl rfl (by decide)⟩

/-- Claim C2 (amended): when A, B, C and the emergency E all fail, the cascade
makes exactly the four attempts A, B, C, E in that order, restores the
original identifier, and throws an error whose message aggregates the
MediaPipe failure message and the emergency failure message (the intermediate
candidate errors are only logged, not aggregated). -/
theorem fallback_all_fail
    (load : List Char → Except (List Char) Bool)
    (A B C E mpErr orig eA eB eC eE : List Char)
    (hA : load A = Except.error eA) (hB : load B = Except.error eB)
    (hC : load C = Except.error eC) (hE : load E = Except.error eE) :
    (fallbackCascade load mpErr orig [A, B, C] E).attempts = [A, B, C, E] ∧
    (fallbackCascade load mpErr orig [A, B, C] E).attempts.length = 4 ∧
    (fallbackCascade load mpErr orig [A, B, C] E).finalModelName = orig ∧
    (fallbackCascade load mpErr orig [A, B, C] E).outcome =
      Except.error ((("All fallback attempts failed. MediaPipe: ").toList) ++ mpErr ++
        ((", Final fallback: ").toList) ++ eE) := by
  have hr : runFallbackList load [A, B, C] = ([A, B, C], none) := by
    simp [runFallbackList, hA, hB, hC]
  refine ⟨?_, ?_, ?_, ?_⟩ <;> simp [fallbackCascade, hr, hE]

/-- Load oracle for the C2 theorems: every identifier fails, each with its own
message. -/
def cexLoad : List Char → Except (List Char) Bool := fun m =>
  if m = ("candA").toList then Except.error (("errorA").toList)
  else if m = ("candB").toList then Except.error (("errorB").toList)
  else if m = ("candC").toList then Except.error (("errorC").toList)
  else Except.error (("errorE").toList)

/-- Claim C2 witness: the amended theorem applied to the all-failing oracle. -/
theorem fallback_all_fail_witness :
    cexLoad (("candA").toList) = Except.error (("errorA").toList) ∧
    cexLoad (("candE").toList) = Except.error (("errorE").toList) ∧
    ((fallbackCascade cexLoad (("mp failure").toList) (("google/gemma-3-1b-it").toList)
        [("candA").toList, ("candB").toList, ("candC").toList] (("candE").toList)).attempts
      = [("candA").toList, ("candB").toList, ("candC").toList, ("candE").toList] ∧
    (fallbackCascade cexLoad (("mp failure").toList) (("google/gemma-3-1b-it").toList)
        [("candA").toList, ("candB").toList, ("candC").toList]
        (("candE").toList)).attempts.length = 4 ∧
    (fallbackCascade cexLoad (("mp failure").toList) (("google/gemma-3-1b-it").toList)
        [("candA").toList, ("candB").toList, ("candC").toList] (("candE").toList)).finalModelName
      = ("google/gemma-3-1b-it").toList ∧
    (fallbackCascade cexLoad (("mp failure").toList) (("google/gemma-3-1b-it").toList)
        [("candA").toList, ("candB").toList, ("candC").toList] (("candE").toList)).outcome
      = Except.error ((("All fallback attempts failed. MediaPipe: ").toList) ++
          (("mp failure").toList) ++ ((", Final fallback: ").toList) ++ (("errorE").toList))) :=
  ⟨rfl, rfl,
   fallback_all_fail cexLoad _ _ _ _ _ _ _ _ _ _ rfl rfl rfl rfl⟩

/-- Claim C2 counterexample: candidate candB failed with message errorB and
was attempted (the attempt list has 4 entries), yet the aggregated error
message of the failed cascade does not contain errorB: the message does not
aggregate every attempt, only the MediaPipe and emergency messages. -/
theorem fallback_message_drops_candidate_errors :
    cexLoad (("candB").toList) = Except.error (("errorB").toList) ∧
    (fallbackCascade cexLoad (("mp failure").toList) (("google/gemma-3-1b-it").toList)
        [("candA").toList, ("candB").toList, ("candC").toList]
        (("candE").toList)).attempts.length = 4 ∧
    occursB (("errorB").toList)
      (errMsgOf ((fallbackCascade cexLoad (("mp failure").toList)
        (("google/gemma-3-1b-it").toList)
        [("candA").toList, ("candB").toList, ("candC").toList]
        (("candE").toList)).outcome)) = false := by
  refine ⟨rfl, by decide, by decide⟩

/-! ### Claims C5, C6, C10: backend switching and the handle registry -/

theorem unloadModel_preserves (st : MMState) (k : List Char) :
    (unloadModel st k).currentBackend = st.currentBackend ∧
    (unloadModel st k).supportedBackends = st.supportedBackends := by
  unfold unloadModel
  constructor <;> (split <;> first | rfl | (split <;> rfl))

theorem foldl_unloadModel_preserves (ks : List (List Char)) (st : MMState) :
    (ks.foldl unloadModel st).currentBackend = st.currentBackend ∧
    (ks.foldl unloadModel st).supportedBackends = st.supportedBackends := by
  induction ks generalizing st with
  | nil => exact ⟨rfl, rfl⟩
  | cons k ks ih =>
    simp only [List.foldl_cons]
    obtain ⟨i1, i2⟩ := ih (unloadModel st k)
    obtain ⟨u1, u2⟩ := unloadModel_preserves st k
    exact ⟨i1.trans u1, i2.trans u2⟩

/-- State after a successful ONNX load of the textgen model: the registry
holds one entry, stored without a session field (model-manager.js lines
177-184 set no session field on the stored object). -/
def loadedState : MMState :=
  { models := [((("textgen").toList), onnxEntry)]
    supportedDevices := [("wasm").toList, ("cpu").toList]
    supportedBackends := [("wasm").toList, ("cpu").toList]
    currentBackend := ("wasm").toList }

/-- Claim C5 (code bug evaluation): switching from wasm to the supported
backend cpu succeeds, yet the previously loaded textgen handle is still in
the registry afterwards, because unloadModel deletes an entry only when the
stored object has a truthy session field and loadModel never stores one. -/
theorem switchBackend_keeps_loaded_handles :
    (switchBackend loadedState (("cpu").toList)).2 = Except.ok true ∧
    (switchBackend loadedState (("cpu").toList)).1.models = loadedState.models ∧
    loadedState.models = [((("textgen").toList), onnxEntry)] ∧
    onnxEntry.hasSession = false :=
  ⟨rfl, rfl, rfl, rfl⟩

/-- Claim C6: switching to a backend name outside the supported list throws
the backend-not-supported error and leaves the entire state, in particular
the current backend and every loaded handle, unchanged. -/
theorem switchBackend_unsupported (st : MMState) (nb : List Char)
    (h : st.supportedBackends.contains nb = false) :
    (switchBackend st nb).1 = st ∧
    (switchBackend st nb).1.models = st.models ∧
    (switchBackend st nb).1.currentBackend = st.currentBackend ∧
    (switchBackend st nb).2 =
      Except.error ((("Backend ").toList) ++ nb ++ ((" is not supported").toList)) := by
  unfold switchBackend
  rw [h]
  exact ⟨rfl, rfl, rfl, rfl⟩

/-- Registry state used to instantiate the C6 theorem. -/
def stateW : MMState :=
  { models := [((("whisper").toList), onnxEntry)]
    supportedDevices := [("webgpu").toList, ("wasm").toList, ("cpu").toList]
    supportedBackends := [("webgpu").toList, ("wasm").toList, ("cpu").toList]
    currentBackend := ("webgpu").toList }

/-- Claim C6 witness: switching stateW to the unsupported backend name
quantum throws and changes nothing. -/
theorem switchBackend_unsupported_witness :
    stateW.supportedBackends.contains (("quantum").toList) = false ∧
    (switchBackend stateW (("quantum").toList)).1 = stateW ∧
    (switchBackend stateW (("quantum").toList)).2 =
      Except.error ((("Backend ").toList) ++ (("quantum").toList) ++
        ((" is not supported").toList)) :=
  ⟨by decide, (switchBackend_unsupported stateW _ (by decide)).1,
   (switchBackend_unsupported stateW _ (by decide)).2.2.2⟩

/-- Claim C10: after device detection the current backend is a member of the
supported-backends list; switchBackend preserves that invariant and assigns a
new current backend only after the membership check succeeds; the registry
operations (unloadModel and the registry write of a load) never change the
current backend. -/
theorem currentBackend_invariant :
    (∀ (st : MMState) (hasWasm : Bool) (gpu : GpuProbe) (hasMediaPipe : Bool),
      (detectSupportedDevices st hasWasm gpu hasMediaPipe).currentBackend ∈
        (detectSupportedDevices st hasWasm gpu hasMediaPipe).supportedBackends) ∧
    (∀ (st : MMState) (nb : List Char),
      st.currentBackend ∈ st.supportedBackends →
      (switchBackend st nb).1.currentBackend ∈ (switchBackend st nb).1.supportedBackends) ∧
    (∀ (st : MMState) (nb : List Char),
      (switchBackend st nb).1.currentBackend ≠ st.currentBackend →
      st.supportedBackends.contains nb = true ∧
        (switchBackend st nb).1.currentBackend = nb) ∧
    (∀ (st : MMState) (k : List Char),
      (unloadModel st k).currentBackend = st.currentBackend) ∧
    (∀ (st : MMState) (k : List Char) (e : ModelEntry),
      (setModelEntry st k e).currentBackend = st.currentBackend) := by
  refine ⟨?_, ?_, ?_, ?_, ?_⟩
  · intro st hasWasm gpu hasMediaPipe
    cases hasWasm <;> cases gpu <;> cases hasMediaPipe <;>
      (simp only [detectSupportedDevices]; decide)
  · intro st nb h
    unfold switchBackend
    by_cases hc : st.supportedBackends.contains nb = true
    · rw [if_pos hc]
      obtain ⟨f1, f2⟩ := foldl_unloadModel_preserves
        (({ st with currentBackend := nb }).models.map Prod.fst)
        ({ st with currentBackend := nb })
      show (List.foldl unloadModel { st with currentBackend := nb }
          (({ st with currentBackend := nb }).models.map Prod.fst)).currentBackend ∈
        (List.foldl unloadModel { st with currentBackend := nb }
          (({ st with currentBackend := nb }).models.map Prod.fst)).supportedBackends
      rw [f1, f2]
      show nb ∈ st.supportedBackends
      exact List.mem_of_elem_eq_true hc
    · rw [if_neg hc]
      exact h
  · intro st nb h
    unfold switchBackend at h ⊢
    by_cases hc : st.supportedBackends.contains nb = true
    · rw [if_pos hc] at h ⊢
      obtain ⟨f1, f2⟩ := foldl_unloadModel_preserves
        (({ st with currentBackend := nb }).models.map Prod.fst)
        ({ st with currentBackend := nb })
      exact ⟨hc, f1⟩
    · rw [if_neg hc] at h
      exact absurd rfl h
  · intro st k
    exact (unloadModel_preserves st k).1
  · intro st k e
    unfold setModelEntry
    split <;> rfl

/-- Registry state used to instantiate the C10 theorem. -/
def invState : MMState :=
  { models := []
    supportedDevices := [("cpu").toList]
    supportedBackends := [("cpu").toList, ("mediapipe").toList]
    currentBackend := ("cpu").toList }

/-- Claim C10 witness: the switch-preservation part of the invariant theorem
applied to a concrete state whose current backend is supported. -/
theorem currentBackend_invariant_witness :
    (invState.currentBackend ∈ invState.supportedBackends) ∧
    ((switchBackend invState (("mediapipe").toList)).1.currentBackend ∈
      (switchBackend invState (("mediapipe").toList)).1.supportedBackends) :=
  ⟨by decide, currentBackend_invariant.2.1 invState (("mediapipe").toList) (by decide)⟩

/-! ### Claim C8: capability probe baseline -/

/-- Claim C8: for every probe outcome (WebAssembly present or absent; WebGPU
adapter found, null, failing, or navigator.gpu absent) the ranked device list
contains cpu exactly once, as its last element; the probe is total, failures
being swallowed into omission. -/
theorem detect_cpu_last (st : MMState) (hasWasm : Bool) (gpu : GpuProbe)
    (hasMediaPipe : Bool) :
    ((detectSupportedDevices st hasWasm gpu hasMediaPipe).supportedDevices.count
      (("cpu").toList) = 1) ∧
    ((detectSupportedDevices st hasWasm gpu hasMediaPipe).supportedDevices.getLast?
      = some (("cpu").toList)) := by
  cases hasWasm <;> cases gpu <;> exact ⟨rfl, rfl⟩

/-! ### Claim C7: benchmark aggregates -/

/-- Claim C7 (amended): over 5 iterations where exactly iteration 3 (index 2)
throws, the benchmark keeps the four successful samples in order and its
aggregates satisfy min <= avg <= max over those four; when zero iterations
succeed, the average is NaN while min and max are the empty-spread values
Infinity and -Infinity — none of the aggregates is silently zero. -/
theorem benchmark_excludes_failures :
    (∀ (outcome : Nat → Option ℚ) (d0 d1 d3 d4 : ℚ),
      outcome 0 = some d0 → outcome 1 = some d1 → outcome 2 = none →
      outcome 3 = some d3 → outcome 4 = some d4 →
      (benchmarkModel 5 outcome).times = [d0, d1, d3, d4] ∧
      (benchmarkModel 5 outcome).times.length = 4 ∧
      (benchmarkModel 5 outcome).averageTime = JSNum.num ((d0 + d1 + d3 + d4) / 4) ∧
      (benchmarkModel 5 outcome).minTime = JSNum.num (min (min (min d0 d1) d3) d4) ∧
      (benchmarkModel 5 outcome).maxTime = JSNum.num (max (max (max d0 d1) d3) d4) ∧
      min (min (min d0 d1) d3) d4 ≤ (d0 + d1 + d3 + d4) / 4 ∧
      (d0 + d1 + d3 + d4) / 4 ≤ max (max (max d0 d1) d3) d4) ∧
    (∀ outcome : Nat → Option ℚ,
      outcome 0 = none → outcome 1 = none → outcome 2 = none →
      outcome 3 = none → outcome 4 = none →
      (benchmarkModel 5 outcome).times = [] ∧
      (benchmarkModel 5 outcome).averageTime = JSNum.nan ∧
      (benchmarkModel 5 outcome).minTime = JSNum.inf ∧
      (benchmarkModel 5 outcome).maxTime = JSNum.ninf) := by
  constructor
  · intro outcome d0 d1 d3 d4 h0 h1 h2 h3 h4
    have hcore : (List.range 5).filterMap outcome = [d0, d1, d3, d4] := by
      rw [show List.range 5 = [0, 1, 2, 3, 4] from rfl]
      simp [h0, h1, h2, h3, h4]
    have ht : (benchmarkModel 5 outcome).times = [d0, d1, d3, d4] := hcore
    have hm1 : min (min (min d0 d1) d3) d4 ≤ d0 :=
      le_trans (min_le_left _ _) (le_trans (min_le_left _ _) (min_le_left _ _))
    have hm2 : min (min (min d0 d1) d3) d4 ≤ d1 :=
      le_trans (min_le_left _ _) (le_trans (min_le_left _ _) (min_le_right _ _))
    have hm3 : min (min (min d0 d1) d3) d4 ≤ d3 :=
      le_trans (min_le_left _ _) (min_le_right _ _)
    have hm4 : min (min (min d0 d1) d3) d4 ≤ d4 := min_le_right _ _
    have hx1 : d0 ≤ max (max (max d0 d1) d3) d4 :=
      le_trans (le_trans (le_max_left _ _) (le_max_left _ _)) (le_max_left _ _)
    have hx2 : d1 ≤ max (max (max d0 d1) d3) d4 :=
      le_trans (le_trans (le_max_right _ _) (le_max_left _ _)) (le_max_left _ _)
    have hx3 : d3 ≤ max (max (max d0 d1) d3) d4 :=
      le_trans (le_max_right _ _) (le_max_left _ _)
    have hx4 : d4 ≤ max (max (max d0 d1) d3) d4 := le_max_right _ _
    refine ⟨ht, ?_, ?_, ?_, ?_, ?_, ?_⟩
    · rw [ht]
      rfl
    · show jsDiv (((List.range 5).filterMap outcome).foldl (· + ·) 0)
        ((List.range 5).filterMap outcome).length = JSNum.num ((d0 + d1 + d3 + d4) / 4)
      rw [hcore]
      show JSNum.num (((((0 : ℚ) + d0) + d1) + d3 + d4) / ((4 : ℕ) : ℚ)) = _
      congr 1
      push_cast
      ring
    · show jsMinList ((List.range 5).filterMap outcome) = _
      rw [hcore]
      rfl
    · show jsMaxList ((List.range 5).filterMap outcome) = _
      rw [hcore]
      rfl
    · linarith
    · linarith
  · intro outcome h0 h1 h2 h3 h4
    have hcore : (List.range 5).filterMap outcome = [] := by
      rw [show List.range 5 = [0, 1, 2, 3, 4] from rfl]
      simp [h0, h1, h2, h3, h4]
    refine ⟨hcore, ?_, ?_, ?_⟩
    · show jsDiv (((List.range 5).filterMap outcome).foldl (· + ·) 0)
        ((List.range 5).filterMap outcome).length = JSNum.nan
      rw [hcore]
      rfl
    · show jsMinList ((List.range 5).filterMap outcome) = JSNum.inf
      rw [hcore]
      rfl
    · show jsMaxList ((List.range 5).filterMap outcome) = JSNum.ninf
      rw [hcore]
      rfl

/-- Iteration outcomes for the C7 witness: iteration 2 (0-based) throws, the
other four succeed with durations 1, 2, 3, 4. -/
def benchOutcomeW : Nat → Option ℚ := fun i =>
  match i with
  | 0 => some 1
  | 1 => some 2
  | 2 => none
  | 3 => some 3
  | 4 => some 4
  | _ => none

/-- Iteration outcomes where every iteration throws. -/
def benchOutcomeZ : Nat → Option ℚ := fun _ => none

/-- Claim C7 witness: the amended theorem applied to both concrete outcome
oracles. -/
theorem benchmark_excludes_failures_witness :
    ((benchmarkModel 5 benchOutcomeW).times = [1, 2, 3, 4] ∧
     (benchmarkModel 5 benchOutcomeW).times.length = 4 ∧
     (benchmarkModel 5 benchOutcomeW).averageTime = JSNum.num ((1 + 2 + 3 + 4) / 4) ∧
     (benchmarkModel 5 benchOutcomeW).minTime = JSNum.num (min (min (min 1 2) 3) 4) ∧
     (benchmarkModel 5 benchOutcomeW).maxTime = JSNum.num (max (max (max 1 2) 3) 4) ∧
     min (min (min (1 : ℚ) 2) 3) 4 ≤ (1 + 2 + 3 + 4) / 4 ∧
     ((1 : ℚ) + 2 + 3 + 4) / 4 ≤ max (max (max 1 2) 3) 4) ∧
    ((benchmarkModel 5 benchOutcomeZ).times = [] ∧
     (benchmarkModel 5 benchOutcomeZ).averageTime = JSNum.nan ∧
     (benchmarkModel 5 benchOutcomeZ).minTime = JSNum.inf ∧
     (benchmarkModel 5 benchOutcomeZ).maxTime = JSNum.ninf) :=
  ⟨benchmark_excludes_failures.1 benchOutcomeW 1 2 3 4 rfl rfl rfl rfl rfl,
   benchmark_excludes_failures.2 benchOutcomeZ rfl rfl rfl rfl rfl⟩

/-- Claim C7 counterexample: with zero successful iterations the minimum is
Infinity and the maximum is -Infinity — well-defined non-NaN values — so the
claim that all three aggregates are undefined/NaN fails (only the average is
NaN). -/
theorem benchmark_zero_success_min_not_nan :
    (benchmarkModel 5 benchOutcomeZ).minTime = JSNum.inf ∧
    (benchmarkModel 5 benchOutcomeZ).maxTime = JSNum.ninf ∧
    JSNum.inf ≠ JSNum.nan ∧
    JSNum.ninf ≠ JSNum.nan ∧
    JSNum.inf ≠ JSNum.num 0 := by
  refine ⟨rfl, rfl, ?_, ?_, ?_⟩ <;> intro hx <;> exact JSNum.noConfusion hx

/-! ### Claim C9: pacing does not change the emitted stream -/

theorem emittedEvents_append (t₁ t₂ : List StreamAction) :
    emittedEvents (t₁ ++ t₂) = emittedEvents t₁ ++ emittedEvents t₂ := by
  simp [emittedEvents]

theorem emittedEvents_emit_cons (e : StreamEvent) (tr : List StreamAction) :
    emittedEvents (StreamAction.emit e :: tr) = e :: emittedEvents tr := by
  simp [emittedEvents]

theorem emittedEvents_sleep_cons (ms : Nat) (tr : List StreamAction) :
    emittedEvents (StreamAction.sleep ms :: tr) = emittedEvents tr := by
  simp [emittedEvents]

theorem genStreamLoop_pacing (wd₁ sd₁ wd₂ sd₂ : Nat) (ws : List (List Char)) :
    ∀ sb ft : List Char,
      emittedEvents (genStreamLoop wd₁ sd₁ ws sb ft).1
        = emittedEvents (genStreamLoop wd₂ sd₂ ws sb ft).1 ∧
      (genStreamLoop wd₁ sd₁ ws sb ft).2 = (genStreamLoop wd₂ sd₂ ws sb ft).2 := by
  induction ws with
  | nil => intro sb ft; exact ⟨rfl, rfl⟩
  | cons w rest ih =>
    intro sb ft
    by_cases hc : ((w.getLast?.getD ' ') == '.' || (w.getLast?.getD ' ') == '!' ||
        (w.getLast?.getD ' ') == '?') = true
    · obtain ⟨e1, e2⟩ := ih [] (ft ++ w ++ [' '])
      simp only [genStreamLoop, if_pos hc]
      exact ⟨by simp only [emittedEvents_emit_cons, emittedEvents_sleep_cons]; rw [e1], e2⟩
    · obtain ⟨e1, e2⟩ := ih (sb ++ w ++ [' ']) (ft ++ w ++ [' '])
      simp only [genStreamLoop, if_neg hc]
      exact ⟨by simp only [emittedEvents_emit_cons, emittedEvents_sleep_cons]; rw [e1], e2⟩

theorem streamTail_congr (t₁ t₂ : List StreamAction) (pr₁ pr₂ : List Char × List Char)
    (he : emittedEvents t₁ = emittedEvents t₂) (hp : pr₁ = pr₂) :
    emittedEvents ((if trimL pr₁.1 ≠ [] then
        t₁ ++ [StreamAction.emit ⟨EventType.sentence, trimL pr₁.1, none, false⟩] else t₁)
      ++ [StreamAction.emit ⟨EventType.complete, trimL pr₁.2, none, true⟩])
    = emittedEvents ((if trimL pr₂.1 ≠ [] then
        t₂ ++ [StreamAction.emit ⟨EventType.sentence, trimL pr₂.1, none, false⟩] else t₂)
      ++ [StreamAction.emit ⟨EventType.complete, trimL pr₂.2, none, true⟩]) := by
  subst hp
  by_cases hcond : trimL pr₁.1 ≠ []
  · simp only [if_pos hcond, emittedEvents_append, he]
  · simp only [if_neg hcond, emittedEvents_append, he]

/-- Claim C9: for the same response text, the sequence of emitted stream
events and the returned full text are identical whichever pacing class is in
effect — the shorter Q4 delays change only the sleep entries of the action
trace, never the emitted content or its order. -/
theorem streaming_pacing_independent (q₁ q₂ : Bool) (text : List Char) :
    emittedEvents (generateStreamingText q₁ text).1
      = emittedEvents (generateStreamingText q₂ text).1 ∧
    (generateStreamingText q₁ text).2 = (generateStreamingText q₂ text).2 := by
  obtain ⟨e1, e2⟩ := genStreamLoop_pacing (if q₁ then 15 else 20) (if q₁ then 30 else 50)
    (if q₂ then 15 else 20) (if q₂ then 30 else 50) (splitOnL ([' ']) text) [] []
  refine ⟨streamTail_congr _ _ _ _ e1 e2, ?_⟩
  show trimL (genStreamLoop (if q₁ then 15 else 20) (if q₁ then 30 else 50)
      (splitOnL ([' ']) text) [] []).2.2
    = trimL (genStreamLoop (if q₂ then 15 else 20) (if q₂ then 30 else 50)
      (splitOnL ([' ']) text) [] []).2.2
  rw [e2]
